import Mathlib

/-!
# Verification of the songbird mixer-control and event-context core

A shallow embedding of the two source files
`src/driver/tasks/message/mixer.rs` and `src/events/context/mod.rs`,
together with spec-modelled definitions for the parts of the crate
(the mixer task loop, the event payload conversions, the `CoreEvent`
enumeration) that are referenced but not part of the source sample.
-/

namespace Songbird

/-! ## External collaborator value types -/

/-- The symmetric AEAD cipher instance (`XSalsa20Poly1305`), modelled by its
key material; the core only ever clones it and moves it around. -/
structure Cipher where
  key : List Nat
deriving DecidableEq, Repr

/-- Rust `Clone` for the cipher: an equal, independently owned value. -/
def Cipher.clone (c : Cipher) : Cipher := c

/-- Per-connection cryptographic bookkeeping, opaque to this core. -/
structure CryptoState where
  seq : Nat
deriving DecidableEq, Repr

/-- A flume `Sender` endpoint, modelled by whether the receiving task is
still alive and by the queue the sender appends to. -/
structure Sender (α : Type) where
  receiverAlive : Bool
  queue : List α
deriving DecidableEq, Repr

/-- flume `send`: appends the message when the receiver is alive and reports
success; when the receiver is gone it leaves the queue unchanged and reports
failure. It never blocks and never panics (a total function). -/
def Sender.send {α : Type} (s : Sender α) (m : α) : Sender α × Bool :=
  if s.receiverAlive then ({ s with queue := s.queue ++ [m] }, true)
  else (s, false)

/-- Rust `Clone` for a sender handle: an equal handle to the same channel. -/
def Sender.clone {α : Type} (s : Sender α) : Sender α := s

/-- Modelled from the spec: the command type of the receive-side network
task; only its terminal `Poison` marker is part of this core's boundary. -/
inductive UdpRxMessage
  | Poison
deriving DecidableEq, Repr

/-- Modelled from the spec: the command type of the transmit-side network
task; only its terminal `Poison` marker is part of this core's boundary. -/
inductive UdpTxMessage
  | Poison
deriving DecidableEq, Repr

/-- Modelled from the spec: a control-channel (keepalive/speaking) message
pushed through the `Ws` sink; opaque to this core. -/
structure WsMessage where
  raw : Nat
deriving DecidableEq, Repr

/-- An audio track, opaque to this core. -/
structure Track where
  id : Nat
deriving DecidableEq, Repr

/-- An encoder bitrate setting, opaque to this core. -/
structure Bitrate where
  bps : Nat
deriving DecidableEq, Repr

/-- A driver configuration value, opaque to this core. -/
structure Config where
  raw : Nat
deriving DecidableEq, Repr

/-- The cross-task channel bundle used to emit events/telemetry, opaque. -/
structure Interconnect where
  raw : Nat
deriving DecidableEq, Repr

/-! ## MixerConnection (mixer.rs lines 12-24) -/

/-- `MixerConnection` (mixer.rs lines 12-17): one live encrypted transport
session, bundling the cipher, its crypto state and the two outbound channel
endpoints. -/
structure MixerConnection where
  cipher : Cipher
  crypto_state : CryptoState
  udp_rx : Sender UdpRxMessage
  udp_tx : Sender UdpTxMessage
deriving DecidableEq, Repr

/-- `impl Drop for MixerConnection` (mixer.rs lines 19-24): one best-effort
`Poison` send on `udp_rx`, then one on `udp_tx`, each result discarded with
`let _ =`. The function returns the two channel states left behind; it is
total, so the embedding has no panicking or blocking path. -/
def MixerConnection.drop (c : MixerConnection) :
    Sender UdpRxMessage × Sender UdpTxMessage :=
  ((c.udp_rx.send UdpRxMessage.Poison).1, (c.udp_tx.send UdpTxMessage.Poison).1)

/-- `MixerMessage` (mixer.rs lines 26-43): the command union consumed in
send order by the mixer task. The `u32` generation accompanying `SetConn`
is carried as a `Nat`; the core never does arithmetic on it. -/
inductive MixerMessage
  | AddTrack (t : Track)
  | SetTrack (t : Option Track)
  | SetBitrate (b : Bitrate)
  | SetConfig (c : Config)
  | SetMute (m : Bool)
  | SetDisabled (d : Bool)
  | SetConn (c : MixerConnection) (generation : Nat)
  | Ws (w : Option (Sender WsMessage))
  | DropConn
  | ReplaceInterconnect (i : Interconnect)
  | RebuildEncoder
  | Poison
deriving DecidableEq, Repr

/-! ## Theorems for the connection lifecycle -/

/-- Claim C1: dropping a `MixerConnection` attempts exactly one
`UdpRxMessage.Poison` send on its `udp_rx` channel and exactly one
`UdpTxMessage.Poison` send on its `udp_tx` channel; a send on a dead channel
is silently discarded (queue unchanged) while the other send is still
attempted, and the drop is a total function — it never panics or blocks. -/
theorem C1_drop_poisons_both_channels (c : MixerConnection) :
    (c.drop.1.queue =
        c.udp_rx.queue ++
          (if c.udp_rx.receiverAlive then [UdpRxMessage.Poison] else []))
    ∧ (c.drop.2.queue =
        c.udp_tx.queue ++
          (if c.udp_tx.receiverAlive then [UdpTxMessage.Poison] else []))
    ∧ c.drop.1.receiverAlive = c.udp_rx.receiverAlive
    ∧ c.drop.2.receiverAlive = c.udp_tx.receiverAlive := by
  refine ⟨?_, ?_, ?_, ?_⟩ <;>
    · simp only [MixerConnection.drop, Sender.send]
      split <;> simp

/-- Claim C7: constructing a `MixerConnection` is pure aggregation of its
four parts: each field of the constructed value is exactly the part
supplied, the channel states (queues and liveness) are untouched, and the
constructor is a total function with no fallible computation. -/
theorem C7_construction_pure_aggregation (ci : Cipher) (cs : CryptoState)
    (rx : Sender UdpRxMessage) (tx : Sender UdpTxMessage) :
    (MixerConnection.mk ci cs rx tx).cipher = ci
    ∧ (MixerConnection.mk ci cs rx tx).crypto_state = cs
    ∧ (MixerConnection.mk ci cs rx tx).udp_rx = rx
    ∧ (MixerConnection.mk ci cs rx tx).udp_tx = tx := by
  exact ⟨rfl, rfl, rfl, rfl⟩

/-! ## Event payload types (context/data and context/internal_data) -/

/-- A speaking-state payload from the voice gateway (`Copy` in the source):
SSRC, optional user id and the raw speaking flags. -/
structure Speaking where
  ssrc : Nat
  user_id : Option Nat
  speaking : Nat
deriving DecidableEq, Repr

/-- A client-disconnect payload (`Copy` in the source). -/
structure ClientDisconnect where
  user_id : Nat
deriving DecidableEq, Repr

/-- Modelled from the spec: the internal speaking-transition payload
(`internal_data.rs`, not in the source sample): an SSRC and whether that
source has started or stopped transmitting. -/
structure InternalSpeakingUpdate where
  ssrc : Nat
  speaking : Bool
deriving DecidableEq, Repr

/-- Modelled from the spec: the external speaking-transition payload
(`data.rs`, not in the source sample). -/
structure SpeakingUpdateData where
  ssrc : Nat
  speaking : Bool
deriving DecidableEq, Repr

/-- Modelled from the spec: `SpeakingUpdateData::from` copies the SSRC and
flag values unchanged (conversion is lossless modulo ownership). -/
def SpeakingUpdateData.ofInternal (i : InternalSpeakingUpdate) :
    SpeakingUpdateData :=
  ⟨i.ssrc, i.speaking⟩

/-- Modelled from the spec: the internal voice-packet payload
(`internal_data.rs`): the optional decoded audio, the raw RTP packet bytes
and the payload offsets. -/
structure InternalVoicePacket where
  audio : Option (List Nat)
  packet : List Nat
  payload_offset : Nat
  payload_end_pad : Nat
deriving DecidableEq, Repr

/-- Modelled from the spec: the external voice-packet payload (`data.rs`),
borrowing the same bytes. -/
structure VoiceData where
  audio : Option (List Nat)
  packet : List Nat
  payload_offset : Nat
  payload_end_pad : Nat
deriving DecidableEq, Repr

/-- Modelled from the spec: `VoiceData::from` exposes the same audio buffer
and the same packet bytes, changing only ownership. -/
def VoiceData.ofInternal (i : InternalVoicePacket) : VoiceData :=
  ⟨i.audio, i.packet, i.payload_offset, i.payload_end_pad⟩

/-- Modelled from the spec: the internal RTCP payload (`internal_data.rs`):
the raw packet bytes and the payload offsets. -/
structure InternalRtcpPacket where
  packet : List Nat
  payload_offset : Nat
  payload_end_pad : Nat
deriving DecidableEq, Repr

/-- Modelled from the spec: the external RTCP payload (`data.rs`). -/
structure RtcpData where
  packet : List Nat
  payload_offset : Nat
  payload_end_pad : Nat
deriving DecidableEq, Repr

/-- Modelled from the spec: `RtcpData::from` exposes the same packet bytes,
changing only ownership. -/
def RtcpData.ofInternal (i : InternalRtcpPacket) : RtcpData :=
  ⟨i.packet, i.payload_offset, i.payload_end_pad⟩

/-- Modelled from the spec: the internal connect payload
(`internal_data.rs`): session data established by the voice handshake. -/
structure InternalConnect where
  channel_id : Option Nat
  guild_id : Nat
  session_id : String
  server : String
  ssrc : Nat
deriving DecidableEq, Repr

/-- Modelled from the spec: the external connect payload (`data.rs`). -/
structure ConnectData where
  channel_id : Option Nat
  guild_id : Nat
  session_id : String
  server : String
  ssrc : Nat
deriving DecidableEq, Repr

/-- Modelled from the spec: `ConnectData::from` copies the session data
unchanged. -/
def ConnectData.ofInternal (i : InternalConnect) : ConnectData :=
  ⟨i.channel_id, i.guild_id, i.session_id, i.server, i.ssrc⟩

/-- Modelled from the spec: the internal disconnect payload
(`internal_data.rs`): why and from where the driver disconnected. -/
structure InternalDisconnect where
  kind : Nat
  reason : Option Nat
  channel_id : Option Nat
  guild_id : Nat
  session_id : String
deriving DecidableEq, Repr

/-- Modelled from the spec: the external disconnect payload (`data.rs`). -/
structure DisconnectData where
  kind : Nat
  reason : Option Nat
  channel_id : Option Nat
  guild_id : Nat
  session_id : String
deriving DecidableEq, Repr

/-- Modelled from the spec: `DisconnectData::from` copies the disconnect
information unchanged. -/
def DisconnectData.ofInternal (i : InternalDisconnect) : DisconnectData :=
  ⟨i.kind, i.reason, i.channel_id, i.guild_id, i.session_id⟩

/-- A track's playback state, opaque to this core. -/
structure TrackState where
  raw : Nat
deriving DecidableEq, Repr

/-- A handle to a track, opaque to this core. -/
structure TrackHandle where
  raw : Nat
deriving DecidableEq, Repr

/-- Modelled from the spec: `CoreEvent`, the closed enumeration of
globally-matchable event kinds used for listener routing (declared in
`events/mod.rs`, outside the source sample; its tags are listed in the
spec's data model). -/
inductive CoreEvent
  | SpeakingStateUpdate
  | SpeakingUpdate
  | VoicePacket
  | RtcpPacket
  | ClientDisconnect
  | DriverConnect
  | DriverReconnect
  | DriverDisconnect
deriving DecidableEq, Repr

/-! ## CipherWrapper and the two context unions (context/mod.rs) -/

/-- `CipherWrapper` (mod.rs line 18): a newtype around the cipher exposed
to user code. -/
structure CipherWrapper where
  cipher : Cipher
deriving DecidableEq, Repr

/-- `impl fmt::Debug for CipherWrapper` (mod.rs lines 20-24): the formatter
emits only the struct name via `debug_struct("CipherWrapper").finish()`,
independent of the wrapped cipher. -/
def CipherWrapper.fmtDebug (_ : CipherWrapper) : String := "CipherWrapper"

/-- `EventContext` (mod.rs lines 43-80): the externally-visible event
representation delivered to user callbacks. -/
inductive EventContext
  | Track (ts : List (TrackState × TrackHandle))
  | SpeakingStateUpdate (s : Speaking)
  | SpeakingUpdate (s : SpeakingUpdateData)
  | VoicePacket (v : VoiceData)
  | RtcpPacket (r : RtcpData)
  | ClientDisconnect (c : ClientDisconnect)
  | DriverConnect (c : ConnectData) (tx : Sender UdpTxMessage)
      (ws : Sender WsMessage) (w : CipherWrapper)
  | DriverReconnect (c : ConnectData) (tx : Sender UdpTxMessage)
      (ws : Sender WsMessage) (w : CipherWrapper)
  | DriverDisconnect (d : DisconnectData)
deriving DecidableEq, Repr

/-- `CoreContext` (mod.rs lines 82-101): the internal event representation
carrying internal payload types, the live channel senders and the raw
cipher. -/
inductive CoreContext
  | SpeakingStateUpdate (s : Speaking)
  | SpeakingUpdate (s : InternalSpeakingUpdate)
  | VoicePacket (v : InternalVoicePacket)
  | RtcpPacket (r : InternalRtcpPacket)
  | ClientDisconnect (c : ClientDisconnect)
  | DriverConnect (c : InternalConnect) (tx : Sender UdpTxMessage)
      (ws : Sender WsMessage) (cipher : Cipher)
  | DriverReconnect (c : InternalConnect) (tx : Sender UdpTxMessage)
      (ws : Sender WsMessage) (cipher : Cipher)
  | DriverDisconnect (d : InternalDisconnect)
deriving DecidableEq, Repr

/-- `CoreContext::to_user_context` (mod.rs lines 104-127): converts each
variant to the matching `EventContext` variant, converting payloads via the
`From` impls, cloning the sender handles and wrapping a clone of the cipher
in `CipherWrapper`. -/
def CoreContext.to_user_context : CoreContext → EventContext
  | .SpeakingStateUpdate evt => EventContext.SpeakingStateUpdate evt
  | .SpeakingUpdate evt =>
      EventContext.SpeakingUpdate (SpeakingUpdateData.ofInternal evt)
  | .VoicePacket evt => EventContext.VoicePacket (VoiceData.ofInternal evt)
  | .RtcpPacket evt => EventContext.RtcpPacket (RtcpData.ofInternal evt)
  | .ClientDisconnect evt => EventContext.ClientDisconnect evt
  | .DriverConnect evt tx ws cipher =>
      EventContext.DriverConnect (ConnectData.ofInternal evt)
        tx.clone ws.clone (CipherWrapper.mk cipher.clone)
  | .DriverReconnect evt tx ws cipher =>
      EventContext.DriverReconnect (ConnectData.ofInternal evt)
        tx.clone ws.clone (CipherWrapper.mk cipher.clone)
  | .DriverDisconnect evt =>
      EventContext.DriverDisconnect (DisconnectData.ofInternal evt)

/-- `CoreContext::to_user_context` in state-passing form: the source takes
`&'a self`, so the embedding also returns the `CoreContext` left behind
after the call; each arm rebuilds it from the fields that were only read
(copied or cloned), mirroring that the borrow is shared and immutable. -/
def CoreContext.to_user_contextRead : CoreContext → EventContext × CoreContext
  | .SpeakingStateUpdate evt =>
      (EventContext.SpeakingStateUpdate evt, .SpeakingStateUpdate evt)
  | .SpeakingUpdate evt =>
      (EventContext.SpeakingUpdate (SpeakingUpdateData.ofInternal evt),
        .SpeakingUpdate evt)
  | .VoicePacket evt =>
      (EventContext.VoicePacket (VoiceData.ofInternal evt), .VoicePacket evt)
  | .RtcpPacket evt =>
      (EventContext.RtcpPacket (RtcpData.ofInternal evt), .RtcpPacket evt)
  | .ClientDisconnect evt =>
      (EventContext.ClientDisconnect evt, .ClientDisconnect evt)
  | .DriverConnect evt tx ws cipher =>
      (EventContext.DriverConnect (ConnectData.ofInternal evt)
          tx.clone ws.clone (CipherWrapper.mk cipher.clone),
        .DriverConnect evt tx ws cipher)
  | .DriverReconnect evt tx ws cipher =>
      (EventContext.DriverReconnect (ConnectData.ofInternal evt)
          tx.clone ws.clone (CipherWrapper.mk cipher.clone),
        .DriverReconnect evt tx ws cipher)
  | .DriverDisconnect evt =>
      (EventContext.DriverDisconnect (DisconnectData.ofInternal evt),
        .DriverDisconnect evt)

/-- `EventContext::to_core_event` (mod.rs lines 133-147): the event class
used when matching an event against registered listeners; the catch-all arm
returns `none` for the track-scoped variant. -/
def EventContext.to_core_event : EventContext → Option CoreEvent
  | .SpeakingStateUpdate _ => some CoreEvent.SpeakingStateUpdate
  | .SpeakingUpdate _ => some CoreEvent.SpeakingUpdate
  | .VoicePacket _ => some CoreEvent.VoicePacket
  | .RtcpPacket _ => some CoreEvent.RtcpPacket
  | .ClientDisconnect _ => some CoreEvent.ClientDisconnect
  | .DriverConnect _ _ _ _ => some CoreEvent.DriverConnect
  | .DriverReconnect _ _ _ _ => some CoreEvent.DriverReconnect
  | .DriverDisconnect _ => some CoreEvent.DriverDisconnect
  | _ => none

/-! ## Theorems for the event-context duality -/

/-- Claim C2: `to_user_context` sends every `CoreContext` variant to the
`EventContext` variant of the matching kind, and the payload carries the
same content: the same speaking values, the same SSRC and flag, the same
audio and packet bytes, the same session and disconnect data, the same
sender handles and a wrapper around an equal cipher. -/
theorem C2_to_user_context_matching_variant :
    (∀ evt : Speaking,
        (CoreContext.SpeakingStateUpdate evt).to_user_context =
          EventContext.SpeakingStateUpdate evt)
    ∧ (∀ evt : InternalSpeakingUpdate,
        (CoreContext.SpeakingUpdate evt).to_user_context =
          EventContext.SpeakingUpdate ⟨evt.ssrc, evt.speaking⟩)
    ∧ (∀ evt : InternalVoicePacket,
        (CoreContext.VoicePacket evt).to_user_context =
          EventContext.VoicePacket
            ⟨evt.audio, evt.packet, evt.payload_offset, evt.payload_end_pad⟩)
    ∧ (∀ evt : InternalRtcpPacket,
        (CoreContext.RtcpPacket evt).to_user_context =
          EventContext.RtcpPacket
            ⟨evt.packet, evt.payload_offset, evt.payload_end_pad⟩)
    ∧ (∀ evt : ClientDisconnect,
        (CoreContext.ClientDisconnect evt).to_user_context =
          EventContext.ClientDisconnect evt)
    ∧ (∀ (evt : InternalConnect) (tx : Sender UdpTxMessage)
          (ws : Sender WsMessage) (cipher : Cipher),
        (CoreContext.DriverConnect evt tx ws cipher).to_user_context =
          EventContext.DriverConnect
            ⟨evt.channel_id, evt.guild_id, evt.session_id, evt.server,
              evt.ssrc⟩
            tx ws (CipherWrapper.mk cipher))
    ∧ (∀ (evt : InternalConnect) (tx : Sender UdpTxMessage)
          (ws : Sender WsMessage) (cipher : Cipher),
        (CoreContext.DriverReconnect evt tx ws cipher).to_user_context =
          EventContext.DriverReconnect
            ⟨evt.channel_id, evt.guild_id, evt.session_id, evt.server,
              evt.ssrc⟩
            tx ws (CipherWrapper.mk cipher))
    ∧ (∀ evt : InternalDisconnect,
        (CoreContext.DriverDisconnect evt).to_user_context =
          EventContext.DriverDisconnect
            ⟨evt.kind, evt.reason, evt.channel_id, evt.guild_id,
              evt.session_id⟩) := by
  refine ⟨fun _ => rfl, fun _ => rfl, fun _ => rfl, fun _ => rfl,
    fun _ => rfl, fun _ _ _ _ => rfl, fun _ _ _ _ => rfl, fun _ => rfl⟩

/-- Claim C3: `to_core_event` is total on `EventContext`: each of the eight
non-track variants maps to exactly one `CoreEvent` tag (for every payload),
the eight tags are pairwise distinct, and the track-scoped variant maps to
`none`. -/
theorem C3_to_core_event_classification :
    (∀ s, (EventContext.SpeakingStateUpdate s).to_core_event =
        some CoreEvent.SpeakingStateUpdate)
    ∧ (∀ s, (EventContext.SpeakingUpdate s).to_core_event =
        some CoreEvent.SpeakingUpdate)
    ∧ (∀ v, (EventContext.VoicePacket v).to_core_event =
        some CoreEvent.VoicePacket)
    ∧ (∀ r, (EventContext.RtcpPacket r).to_core_event =
        some CoreEvent.RtcpPacket)
    ∧ (∀ c, (EventContext.ClientDisconnect c).to_core_event =
        some CoreEvent.ClientDisconnect)
    ∧ (∀ c tx ws w, (EventContext.DriverConnect c tx ws w).to_core_event =
        some CoreEvent.DriverConnect)
    ∧ (∀ c tx ws w, (EventContext.DriverReconnect c tx ws w).to_core_event =
        some CoreEvent.DriverReconnect)
    ∧ (∀ d, (EventContext.DriverDisconnect d).to_core_event =
        some CoreEvent.DriverDisconnect)
    ∧ (∀ ts, (EventContext.Track ts).to_core_event = none)
    ∧ List.Pairwise (· ≠ ·)
        [CoreEvent.SpeakingStateUpdate, CoreEvent.SpeakingUpdate,
          CoreEvent.VoicePacket, CoreEvent.RtcpPacket,
          CoreEvent.ClientDisconnect, CoreEvent.DriverConnect,
          CoreEvent.DriverReconnect, CoreEvent.DriverDisconnect] := by
  refine ⟨fun _ => rfl, fun _ => rfl, fun _ => rfl, fun _ => rfl,
    fun _ => rfl, fun _ _ _ _ => rfl, fun _ _ _ _ => rfl, fun _ => rfl,
    fun _ => rfl, by decide⟩

/-- Claim C4: classifying the converted context never fails and yields the
tag matching the `CoreContext`'s own variant: for every `CoreContext` value
`c`, `(c.to_user_context).to_core_event` is `some` of the corresponding
tag, so the conversion path never produces a track-scoped (unmatchable)
`EventContext`. -/
theorem C4_conversion_then_classification :
    (∀ c : CoreContext, c.to_user_context.to_core_event ≠ none)
    ∧ (∀ s, (CoreContext.SpeakingStateUpdate s).to_user_context.to_core_event
        = some CoreEvent.SpeakingStateUpdate)
    ∧ (∀ s, (CoreContext.SpeakingUpdate s).to_user_context.to_core_event
        = some CoreEvent.SpeakingUpdate)
    ∧ (∀ v, (CoreContext.VoicePacket v).to_user_context.to_core_event
        = some CoreEvent.VoicePacket)
    ∧ (∀ r, (CoreContext.RtcpPacket r).to_user_context.to_core_event
        = some CoreEvent.RtcpPacket)
    ∧ (∀ c, (CoreContext.ClientDisconnect c).to_user_context.to_core_event
        = some CoreEvent.ClientDisconnect)
    ∧ (∀ c tx ws k,
        (CoreContext.DriverConnect c tx ws k).to_user_context.to_core_event
          = some CoreEvent.DriverConnect)
    ∧ (∀ c tx ws k,
        (CoreContext.DriverReconnect c tx ws k).to_user_context.to_core_event
          = some CoreEvent.DriverReconnect)
    ∧ (∀ d, (CoreContext.DriverDisconnect d).to_user_context.to_core_event
        = some CoreEvent.DriverDisconnect) := by
  refine ⟨fun c => ?_, fun _ => rfl, fun _ => rfl, fun _ => rfl,
    fun _ => rfl, fun _ => rfl, fun _ _ _ _ => rfl, fun _ _ _ _ => rfl,
    fun _ => rfl⟩
  cases c <;> simp [CoreContext.to_user_context, EventContext.to_core_event]

/-- Claim C5: for the `DriverConnect` and `DriverReconnect` variants,
`to_user_context` places a clone of the cipher wrapped in `CipherWrapper`
into the result — never the raw cipher handle, which the `EventContext`
type cannot even hold — and places clones of the two sender handles, each
clone equal to the original so the originals are not consumed. -/
theorem C5_cipher_wrapped_senders_cloned (evt : InternalConnect)
    (tx : Sender UdpTxMessage) (ws : Sender WsMessage) (cipher : Cipher) :
    ((CoreContext.DriverConnect evt tx ws cipher).to_user_context =
        EventContext.DriverConnect (ConnectData.ofInternal evt)
          tx.clone ws.clone (CipherWrapper.mk cipher.clone))
    ∧ ((CoreContext.DriverReconnect evt tx ws cipher).to_user_context =
        EventContext.DriverReconnect (ConnectData.ofInternal evt)
          tx.clone ws.clone (CipherWrapper.mk cipher.clone))
    ∧ (CipherWrapper.mk cipher.clone).cipher = cipher
    ∧ tx.clone = tx
    ∧ ws.clone = ws := by
  exact ⟨rfl, rfl, rfl, rfl, rfl⟩

/-- Claim C6: `to_user_context` neither consumes nor mutates the
`CoreContext` it converts: in state-passing form the `CoreContext` left
behind is the very value that was passed in, and the `EventContext`
produced agrees with the plain conversion, so repeated conversions of the
same `CoreContext` yield equal results. -/
theorem C6_conversion_preserves_core_context (c : CoreContext) :
    c.to_user_contextRead = (c.to_user_context, c) := by
  cases c <;> rfl

/-- Claim C10: the Debug formatting of `CipherWrapper` is a constant: any
two wrappers format identically, so no key or cipher material is revealed
through Debug. -/
theorem C10_debug_ignores_cipher (a b : CipherWrapper) :
    CipherWrapper.fmtDebug a = CipherWrapper.fmtDebug b := by
  rfl

/-! ## The mixer task's command loop (modelled from the spec) -/

/-- Modelled from the spec: the state owned by the mixer task's command
loop (spec section 4.2); the loop itself is not part of the source sample.
`conn` holds the pending `MixerConnection` with its generation id,
`lastGen` the generation installed by the most recent `SetConn`, and `log`
records the channel states left behind by each connection teardown, so
poison-signal delivery is observable. -/
structure MixerState where
  conn : Option (MixerConnection × Nat)
  lastGen : Nat
  muted : Bool
  disabled : Bool
  tracks : List Track
  bitrate : Option Bitrate
  config : Option Config
  wsSink : Option (Sender WsMessage)
  poisoned : Bool
  log : List (Sender UdpRxMessage × Sender UdpTxMessage)
deriving DecidableEq, Repr

/-- Modelled from the spec: tearing down the pending connection, if any:
its ownership ends, so `MixerConnection.drop` runs and the resulting
channel states are recorded in the log. -/
def MixerState.dropPending (st : MixerState) : MixerState :=
  match st.conn with
  | none => st
  | some cg => { st with conn := none, log := st.log ++ [cg.1.drop] }

/-- Modelled from the spec: the effect of one non-terminal command on the
mixer state (spec section 4.2). `SetConn` first tears down any superseded
connection, then installs the new one with its generation id; `DropConn`
tears down and returns to the idle state; the remaining commands mutate
configuration only. -/
def stepMsg (st : MixerState) : MixerMessage → MixerState
  | .AddTrack t => { st with tracks := st.tracks ++ [t] }
  | .SetTrack t =>
      { st with tracks := match t with | some tr => [tr] | none => [] }
  | .SetBitrate b => { st with bitrate := some b }
  | .SetConfig c => { st with config := some c }
  | .SetMute m => { st with muted := m }
  | .SetDisabled d => { st with disabled := d }
  | .SetConn c g =>
      { st.dropPending with conn := some (c, g), lastGen := g }
  | .Ws w => { st with wsSink := w }
  | .DropConn => st.dropPending
  | .ReplaceInterconnect _ => st
  | .RebuildEncoder => st
  | .Poison => st

/-- Modelled from the spec: the mixer task's command-processing loop. On
`Poison` it tears down any pending connection, marks the state poisoned and
exits without draining any further queued command (spec section 4.2). -/
def runMixer : MixerState → List MixerMessage → MixerState
  | st, [] => st
  | st, m :: rest =>
      if st.poisoned then st
      else
        match m with
        | MixerMessage.Poison => { st.dropPending with poisoned := true }
        | m => runMixer (stepMsg st m) rest

/-- Modelled from the spec: the trace of mixer states visited by the loop,
starting from the initial state, one entry per state the task holds. -/
def mixerStates : MixerState → List MixerMessage → List MixerState
  | st, [] => [st]
  | st, m :: rest =>
      if st.poisoned then [st]
      else
        match m with
        | MixerMessage.Poison => [st, { st.dropPending with poisoned := true }]
        | m => st :: mixerStates (stepMsg st m) rest

/-- The generation arguments carried by the `SetConn` commands of a message
list, in order. -/
def gensOf (msgs : List MixerMessage) : List Nat :=
  msgs.filterMap fun m =>
    match m with
    | MixerMessage.SetConn _ g => some g
    | _ => none

/-- Modelled from the spec: the consuming network task delivers inbound
data to the active mixing path only when its generation tag matches the
currently installed generation; data tagged with a superseded generation is
discarded. -/
def acceptInbound (current tag : Nat) : Bool := tag == current

/-- The trace of states starts with the initial state. -/
theorem mixerStates_head (st : MixerState) (msgs : List MixerMessage) :
    ∃ l, mixerStates st msgs = st :: l := by
  cases msgs with
  | nil => exact ⟨[], rfl⟩
  | cons m rest =>
      by_cases h : st.poisoned
      · exact ⟨[], by simp [mixerStates, h]⟩
      · cases m <;> simp [mixerStates, h]

/-- The final state of the trace is the result of running the loop. -/
theorem mixerStates_getLast (st : MixerState) (msgs : List MixerMessage) :
    (mixerStates st msgs).getLast? = some (runMixer st msgs) := by
  induction msgs generalizing st with
  | nil => rfl
  | cons m rest ih =>
      by_cases h : st.poisoned
      · simp [mixerStates, runMixer, h]
      · cases m <;>
          simp [mixerStates, runMixer, h, ih, List.getLast?_cons,
            mixerStates_head]

/-- `dropPending` does not change the installed generation. -/
theorem MixerState.dropPending_lastGen (st : MixerState) :
    st.dropPending.lastGen = st.lastGen := by
  cases h : st.conn <;> simp [MixerState.dropPending, h]

/-- Unfolding step for the state trace, given one non-terminal command and
a head state that is not poisoned, together with the chain condition. -/
theorem genChain_step (st : MixerState) (m : MixerMessage)
    (rest : List MixerMessage)
    (hm : mixerStates st (m :: rest) = st :: mixerStates (stepMsg st m) rest)
    (hle : st.lastGen ≤ (stepMsg st m).lastGen)
    (hch : List.Chain' (· ≤ ·)
      ((mixerStates (stepMsg st m) rest).map MixerState.lastGen)) :
    List.Chain' (· ≤ ·) ((mixerStates st (m :: rest)).map MixerState.lastGen) := by
  obtain ⟨l, hl⟩ := mixerStates_head (stepMsg st m) rest
  rw [hm, hl]
  rw [hl] at hch
  simp only [List.map_cons] at hch ⊢
  exact List.chain'_cons.mpr ⟨hle, hch⟩

/-- If the generations carried by the `SetConn` commands advance (never
dropping below the generation already installed), the installed generation
is non-decreasing along the whole trace of states visited by the loop. -/
theorem genChain (st : MixerState) (msgs : List MixerMessage)
    (h : List.Chain' (· ≤ ·) (st.lastGen :: gensOf msgs)) :
    List.Chain' (· ≤ ·) ((mixerStates st msgs).map MixerState.lastGen) := by
  induction msgs generalizing st with
  | nil => simp [mixerStates]
  | cons m rest ih =>
      by_cases hp : st.poisoned
      · simp [mixerStates, hp]
      · cases m with
        | SetConn c g =>
            have h' := List.chain'_cons.mp (by simpa [gensOf] using h)
            exact genChain_step st _ rest (by simp [mixerStates, hp])
              (by simpa [stepMsg] using h'.1)
              (ih _ (by simpa [stepMsg] using h'.2))
        | Poison =>
            have ht : mixerStates st (MixerMessage.Poison :: rest) =
                [st, { st.dropPending with poisoned := true }] := by
              simp [mixerStates, hp]
            rw [ht]
            simp [MixerState.dropPending_lastGen]
        | AddTrack t =>
            exact genChain_step st _ rest (by simp [mixerStates, hp])
              (by simp [stepMsg]) (ih _ (by simpa [gensOf, stepMsg] using h))
        | SetTrack t =>
            exact genChain_step st _ rest (by simp [mixerStates, hp])
              (by simp [stepMsg]) (ih _ (by simpa [gensOf, stepMsg] using h))
        | SetBitrate b =>
            exact genChain_step st _ rest (by simp [mixerStates, hp])
              (by simp [stepMsg]) (ih _ (by simpa [gensOf, stepMsg] using h))
        | SetConfig c =>
            exact genChain_step st _ rest (by simp [mixerStates, hp])
              (by simp [stepMsg]) (ih _ (by simpa [gensOf, stepMsg] using h))
        | SetMute b =>
            exact genChain_step st _ rest (by simp [mixerStates, hp])
              (by simp [stepMsg]) (ih _ (by simpa [gensOf, stepMsg] using h))
        | SetDisabled b =>
            exact genChain_step st _ rest (by simp [mixerStates, hp])
              (by simp [stepMsg]) (ih _ (by simpa [gensOf, stepMsg] using h))
        | Ws w =>
            exact genChain_step st _ rest (by simp [mixerStates, hp])
              (by simp [stepMsg]) (ih _ (by simpa [gensOf, stepMsg] using h))
        | DropConn =>
            exact genChain_step st _ rest (by simp [mixerStates, hp])
              (by simp [stepMsg, MixerState.dropPending_lastGen])
              (ih _ (by simpa [gensOf, stepMsg,
                MixerState.dropPending_lastGen] using h))
        | ReplaceInterconnect i =>
            exact genChain_step st _ rest (by simp [mixerStates, hp])
              (by simp [stepMsg]) (ih _ (by simpa [gensOf, stepMsg] using h))
        | RebuildEncoder =>
            exact genChain_step st _ rest (by simp [mixerStates, hp])
              (by simp [stepMsg]) (ih _ (by simpa [gensOf, stepMsg] using h))

/-- Claim C8: once the mixer loop meets a `Poison` command, the queued
commands behind it are never processed (the run ignores them entirely);
before exiting, any pending `MixerConnection` is torn down — its drop
attempts exactly one `Poison` signal per associated channel, recorded in
the log — the connection slot is cleared and the state is marked
poisoned. -/
theorem C8_poison_terminality (st : MixerState) (rest : List MixerMessage) :
    runMixer st (MixerMessage.Poison :: rest) =
      runMixer st [MixerMessage.Poison]
    ∧ (¬ st.poisoned →
        (runMixer st [MixerMessage.Poison]).poisoned = true
        ∧ (runMixer st [MixerMessage.Poison]).conn = none
        ∧ (runMixer st [MixerMessage.Poison]).log =
            st.log ++
              (match st.conn with
                | some cg => [cg.1.drop]
                | none => [])) := by
  constructor
  · simp [runMixer]
  · intro h
    cases hc : st.conn <;>
      simp [runMixer, h, MixerState.dropPending, hc]

/-- Claim C9: for any sequence of commands whose `SetConn` generations
advance (the spec's contract for the opaque, monotonically-advancing
generation token), the installed generation is non-decreasing along the
entire trace of states the mixer loop visits; and the consuming network
task never delivers data tagged with a generation lower than the currently
installed one to the active mixing path. -/
theorem C9_generation_monotone :
    (∀ (st : MixerState) (msgs : List MixerMessage),
        List.Chain' (· ≤ ·) (st.lastGen :: gensOf msgs) →
          List.Chain' (· ≤ ·)
            ((mixerStates st msgs).map MixerState.lastGen))
    ∧ ∀ current tag, tag < current → acceptInbound current tag = false := by
  refine ⟨genChain, fun current tag h => ?_⟩
  simp only [acceptInbound]
  exact beq_eq_false_iff_ne.mpr (Nat.ne_of_lt h)

/-! ## Concrete instances for the loop theorems -/

/-- A concrete live connection. -/
def sampleConn : MixerConnection :=
  { cipher := ⟨[1, 2, 3]⟩, crypto_state := ⟨0⟩,
    udp_rx := ⟨true, []⟩, udp_tx := ⟨true, []⟩ }

/-- A concrete connection whose transmit task has already exited. -/
def sampleConn2 : MixerConnection :=
  { cipher := ⟨[4]⟩, crypto_state := ⟨1⟩,
    udp_rx := ⟨true, []⟩, udp_tx := ⟨false, []⟩ }

/-- A concrete non-poisoned mixer state holding `sampleConn` at
generation 1. -/
def sampleState : MixerState :=
  { conn := some (sampleConn, 1), lastGen := 1, muted := false,
    disabled := false, tracks := [], bitrate := none, config := none,
    wsSink := none, poisoned := false, log := [] }

/-- A concrete command sequence whose `SetConn` generations advance. -/
def sampleMsgs : List MixerMessage :=
  [MixerMessage.SetConn sampleConn2 2, MixerMessage.SetMute true,
    MixerMessage.SetConn sampleConn 5, MixerMessage.DropConn]

/-- Witness for claim C8 at a concrete non-poisoned state holding a live
connection. -/
theorem C8_poison_terminality_witness :
    ¬ sampleState.poisoned
    ∧ ((runMixer sampleState [MixerMessage.Poison]).poisoned = true
      ∧ (runMixer sampleState [MixerMessage.Poison]).conn = none
      ∧ (runMixer sampleState [MixerMessage.Poison]).log =
          sampleState.log ++
            (match sampleState.conn with
              | some cg => [cg.1.drop]
              | none => [])) :=
  ⟨by decide,
    (C8_poison_terminality sampleState [MixerMessage.SetMute true]).2
      (by decide)⟩

/-- Witness for claim C9 at a concrete state and command sequence with
advancing generations, and at the concrete stale tag 3 against installed
generation 7. -/
theorem C9_generation_monotone_witness :
    (List.Chain' (· ≤ ·) (sampleState.lastGen :: gensOf sampleMsgs)
      ∧ List.Chain' (· ≤ ·)
          ((mixerStates sampleState sampleMsgs).map MixerState.lastGen))
    ∧ (3 < 7 ∧ acceptInbound 7 3 = false) :=
  ⟨⟨by norm_num [sampleState, sampleMsgs, gensOf, List.filterMap_cons,
      List.chain'_cons],
    C9_generation_monotone.1 sampleState sampleMsgs
      (by norm_num [sampleState, sampleMsgs, gensOf, List.filterMap_cons,
      List.chain'_cons])⟩,
    by norm_num, C9_generation_monotone.2 7 3 (by norm_num)⟩

end Songbird
